import Mathlib

/-!
Verification development for the Document Q&A application.

The provided sources are the React frontend (DocumentContext, QA, Search,
Documents, Upload pages).  Pure fragments of that code are embedded below as
Lean definitions; JavaScript numbers are modelled as rationals, JS
string-or-null values as `Option String`, and JS object payloads as
association lists from field names to JSON values.  Backend components that
are described by the design document but whose code is not among the sources
(the Chunker, the Retriever's distance-to-similarity transform) are modelled
from the specification text; each such definition says so in its doc comment.
-/

/-- A JSON field value as sent by the frontend HTTP client: the payloads the
client builds only carry strings and numbers. -/
inductive JsonVal where
  | jstr : String → JsonVal
  | jnum : ℚ → JsonVal
deriving DecidableEq

/-- A retrieval result item as consumed by the Search page: fields read by
`sortedResults` and the result cards.  `similarity_score` and `created_at`
are optional because the page guards them with `|| 0`. -/
structure QueryResultItem where
  document_id : String
  document_title : String
  document_type : String
  chunk_text : String
  created_at : Option ℚ
  similarity_score : Option ℚ
deriving DecidableEq

/-- The sort key the Search page uses for relevance sorting:
`a.similarity_score || 0` (a missing score counts as 0). -/
def simKey (it : QueryResultItem) : ℚ :=
  it.similarity_score.getD 0

/-- The sort key the Search page uses for date sorting:
`new Date(a.created_at || 0)`, modelled as an epoch rational. -/
def dateKey (it : QueryResultItem) : ℚ :=
  it.created_at.getD 0

/-- The JS comparator body for numeric keys: for ascending order
`aValue > bValue ? 1 : -1`, otherwise `aValue < bValue ? 1 : -1`. -/
def jsNumCompare (sortOrder : String) (x y : ℚ) : Int :=
  if sortOrder = "asc" then (if y < x then 1 else -1)
  else (if x < y then 1 else -1)

/-- The JS comparator body for string keys (title sorting), using the
lexicographic order of `<` on strings. -/
def jsStrCompare (sortOrder : String) (x y : String) : Int :=
  if sortOrder = "asc" then (if y < x then 1 else -1)
  else (if x < y then 1 else -1)

/-- The comparator passed to `[...results].sort` on the Search page: the
`switch (sortBy)` selects the key (`similarity`, `date`, `title`; the
default branch behaves like `similarity`), and `sortOrder` selects the
direction. -/
def searchComparator (sortBy sortOrder : String) (a b : QueryResultItem) : Int :=
  if sortBy = "date" then jsNumCompare sortOrder (dateKey a) (dateKey b)
  else if sortBy = "title" then jsStrCompare sortOrder a.document_title b.document_title
  else jsNumCompare sortOrder (simKey a) (simKey b)

/-- Insertion step of a comparison sort with a JS-style comparator:
an element `a` is placed before the first `b` with `cmp a b ≤ 0`. -/
def jsInsert {α : Type} (cmp : α → α → Int) (a : α) : List α → List α
  | [] => [a]
  | b :: l => if cmp a b ≤ 0 then a :: b :: l else b :: jsInsert cmp a l

/-- A comparison sort with a JS-style comparator (negative result means the
first argument comes first), modelling `Array.prototype.sort`. -/
def jsSort {α : Type} (cmp : α → α → Int) : List α → List α
  | [] => []
  | a :: l => jsInsert cmp a (jsSort cmp l)

/-- `sortedResults` of the Search page: `[...results].sort(comparator)`. -/
def sortedResults (sortBy sortOrder : String) (results : List QueryResultItem) :
    List QueryResultItem :=
  jsSort (searchComparator sortBy sortOrder) results

/-- The descending comparator used for similarity ranking:
`(a, b) => aValue < bValue ? 1 : -1` specialised to a rational key. -/
def descCmp {α : Type} (key : α → ℚ) (a b : α) : Int :=
  if key a < key b then 1 else -1

/-- One raw nearest-neighbour hit from the Vector Index:
`(id, distance, metadata)` per the outbound index contract. -/
structure IndexHit where
  chunk_id : String
  distance : ℚ
  document_id : String
  document_title : String
  document_type : String
  chunk_text : String
  created_at : Option ℚ
deriving DecidableEq

/-- Modelled from the spec: the backend Retriever's distance-to-similarity
transform is not among the provided sources; §4.3 fixes it as
`similarity = 1 / (1 + d)` for an index distance `d`. -/
def distanceToSimilarity (d : ℚ) : ℚ := 1 / (1 + d)

/-- Conversion of an index hit into a Query Result Item carrying the
denormalized document metadata and the transformed similarity score. -/
def hitToItem (h : IndexHit) : QueryResultItem :=
  { document_id := h.document_id
    document_title := h.document_title
    document_type := h.document_type
    chunk_text := h.chunk_text
    created_at := h.created_at
    similarity_score := some (distanceToSimilarity h.distance) }

/-- Modelled from the spec: the backend Retriever is not among the provided
sources; §4.3 describes it as transforming each index distance into a
similarity, dropping results whose similarity is strictly below
`similarity_floor`, and returning the survivors in descending similarity
order, truncated to `top_k`. -/
def retrieve (candidates : List IndexHit) (top_k : ℕ) (similarity_floor : ℚ) :
    List QueryResultItem :=
  ((jsSort (descCmp simKey)
    ((candidates.map hitToItem).filter
      (fun it => similarity_floor ≤ simKey it))).take top_k)

/-- Modelled from the spec: the backend Chunker is not among the provided
sources; §4.2 describes a sliding window over the normalized text that emits
the span starting at `start` of at most `chunk_size` characters and advances
by `chunk_size - overlap` characters per step while `start` is inside the
text.  The fuel argument bounds the number of iterations; `text.length`
iterations always suffice when `overlap < chunk_size`. -/
def chunkAux (text : List Char) (chunk_size overlap : ℕ) :
    ℕ → ℕ → List (ℕ × List Char)
  | 0, _ => []
  | fuel + 1, start =>
    if start < text.length then
      (start, (text.drop start).take chunk_size) ::
        chunkAux text chunk_size overlap fuel (start + (chunk_size - overlap))
    else []

/-- Modelled from the spec: `chunk(normalized_text, chunk_size, overlap)`,
the sliding window starting at offset 0.  Each produced chunk records its
starting character offset (§4.2). -/
def chunk (text : List Char) (chunk_size overlap : ℕ) : List (ℕ × List Char) :=
  chunkAux text chunk_size overlap text.length 0

/-- The chunk-count formula claimed by §8 of the spec:
`ceil((L - O) / (S - O))` over natural numbers. -/
def specChunkCount (L S O : ℕ) : ℕ :=
  (L - O + (S - O) - 1) / (S - O)

/-- The payload built by `askQuestion` in DocumentContext:
`{ question }`, plus `document_id` only when `documentId` is truthy. -/
def askPayload (question : String) (documentId : Option String) :
    List (String × JsonVal) :=
  ("question", JsonVal.jstr question) ::
    (match documentId with
      | some d => if d = "" then [] else [("document_id", JsonVal.jstr d)]
      | none => [])

/-- The ask payload produced by the QA page's submit handler, which calls
`askQuestion(question, selectedDocument || null)`. -/
def qaSubmitPayload (question selectedDocument : String) :
    List (String × JsonVal) :=
  askPayload question
    (if selectedDocument = "" then none else some selectedDocument)

/-- JavaScript `String.prototype.trim`: strips leading and trailing
whitespace, modelled over the string's character list. -/
def jsTrim (s : String) : String :=
  String.mk
    (((s.data.dropWhile Char.isWhitespace).reverse.dropWhile
      Char.isWhitespace).reverse)

/-- The payload built by `searchDocuments` in DocumentContext:
`{ query, limit }`. -/
def searchPayload (query : String) (limit : ℚ) : List (String × JsonVal) :=
  [("query", JsonVal.jstr query), ("limit", JsonVal.jnum limit)]

/-- The Search page's submit handler: an empty trimmed query aborts with a
toast, otherwise `searchDocuments(query.trim(), 20)` is called. -/
def handleSearchRequest (query : String) : Option (List (String × JsonVal)) :=
  if jsTrim query = "" then none else some (searchPayload (jsTrim query) 20)

/-- A source item attached to an answer, as the QA page reads it:
it renders `source.title` and `source.chunk_text` and ignores the rest. -/
structure SourceItem where
  title : String
  chunk_text : String
  document_id : String
  similarity_score : Option ℚ
deriving DecidableEq

/-- The answer object of a successful `/qa/ask` response as the QA page
reads it: `answer`, optional `sources`, optional `confidence`. -/
structure AnswerData where
  answer : String
  sources : Option (List SourceItem)
  confidence : Option ℚ
deriving DecidableEq

/-- The value returned by `askQuestion`: `{success: true, answer}` or
`{success: false, error}`. -/
inductive AskResult where
  | success : AnswerData → AskResult
  | failure : String → AskResult
deriving DecidableEq

/-- A chat-history entry of the QA page (id and timestamp omitted: they do
not affect the claims below). -/
structure ChatMessage where
  mtype : String
  content : String
  sources : List SourceItem
  confidence : Option ℚ
deriving DecidableEq

/-- The user entry appended before the request is sent. -/
def userMessage (question : String) : ChatMessage :=
  { mtype := "user", content := question, sources := [], confidence := none }

/-- `result.answer.confidence || null`: JS `||` yields `null` both when the
field is absent and when it is the falsy number 0. -/
def confidenceOrNull (c : Option ℚ) : Option ℚ :=
  match c with
  | none => none
  | some v => if v = 0 then none else some v

/-- The AI entry appended on success: `content`, `sources || []`,
`confidence || null`. -/
def askAiMessage (a : AnswerData) : ChatMessage :=
  { mtype := "ai", content := a.answer, sources := a.sources.getD [],
    confidence := confidenceOrNull a.confidence }

/-- The error entry appended on failure:
`content: result.error || 'Failed to get answer'`. -/
def askErrorMessage (e : String) : ChatMessage :=
  { mtype := "error", content := if e = "" then "Failed to get answer" else e,
    sources := [], confidence := none }

/-- `handleSubmit` of the QA page as a function of the chat history and the
request outcome: an empty trimmed question aborts, otherwise the user entry
and then either the AI entry or the error entry are appended. -/
def handleSubmit (history : List ChatMessage) (question : String)
    (result : AskResult) : List ChatMessage :=
  if jsTrim question = "" then history
  else
    match result with
    | AskResult.success a => history ++ [userMessage question, askAiMessage a]
    | AskResult.failure e => history ++ [userMessage question, askErrorMessage e]

/-- The render guard `message.confidence && (...)` of the confidence badge:
a stored confidence renders only when truthy. -/
def rendersConfidenceBadge (m : ChatMessage) : Bool :=
  match m.confidence with
  | none => false
  | some v => decide (v ≠ 0)

/-- A browser file object as seen by the Upload page: name, MIME type,
byte size. -/
structure JsFile where
  name : String
  mimeType : String
  size : ℕ
deriving DecidableEq

/-- The `accept` allowlist configured on the Upload page's dropzone. -/
def allowedMimeTypes : List String :=
  ["application/pdf",
   "application/vnd.openxmlformats-officedocument.wordprocessingml.document",
   "text/plain",
   "text/markdown"]

/-- The `maxSize` configured on the Upload page's dropzone: 10 MB. -/
def maxUploadSize : ℕ := 10 * 1024 * 1024

/-- Modelled from the spec: the file filtering done by the dropzone library
configured on the Upload page is not itself among the sources; per the
upload validation requirement ("validates type against an allowlist and
size against a maximum ... before any state is created"), a dropped file is
accepted exactly when its MIME type is in the configured allowlist and its
size does not exceed the configured maximum. -/
def dropzoneAccepts (f : JsFile) : Bool :=
  decide (f.mimeType ∈ allowedMimeTypes) && decide (f.size ≤ maxUploadSize)

/-- `onDrop` of the Upload page: only the accepted files are appended to
the selected-files list (random ids and progress omitted). -/
def onDropFiles (prev dropped : List JsFile) : List JsFile :=
  prev ++ dropped.filter dropzoneAccepts

/-- One `uploadDocument` call issued by the Upload page's submit handler. -/
structure UploadRequest where
  file : JsFile
  title : String
  description : String
deriving DecidableEq

/-- `handleSubmit` of the Upload page: one upload request per selected
file, titled `formData.title || file.name`. -/
def uploadSubmit (selected : List JsFile) (title description : String) :
    List UploadRequest :=
  selected.map (fun f =>
    { file := f, title := if title = "" then f.name else title,
      description := description })

/-- The citation card rendered for one source on the QA page: the document
title, and — when `chunk_text` is truthy — the first 100 characters of the
chunk followed by an ellipsis. -/
def renderSource (s : SourceItem) : String × Option String :=
  (s.title,
    if s.chunk_text = "" then none
    else some (s.chunk_text.take 100 ++ "..."))

/-- The icon component returned by `getStatusIcon` on the Documents page. -/
inductive StatusIcon where
  | checkCircle
  | loader
  | alertCircle
  | clock
deriving DecidableEq

/-- `getStatusIcon` of the Documents page: a switch over the status string
with a default clock icon. -/
def getStatusIcon (status : String) : StatusIcon :=
  if status = "processed" then StatusIcon.checkCircle
  else if status = "processing" then StatusIcon.loader
  else if status = "error" then StatusIcon.alertCircle
  else StatusIcon.clock

/-- `getStatusColor` of the Documents page: a switch over the status string
with a default yellow badge. -/
def getStatusColor (status : String) : String :=
  if status = "processed" then "bg-green-100 text-green-800"
  else if status = "processing" then "bg-blue-100 text-blue-800"
  else if status = "error" then "bg-red-100 text-red-800"
  else "bg-yellow-100 text-yellow-800"

theorem mem_jsInsert {α : Type} (cmp : α → α → Int) (a x : α) :
    ∀ l : List α, x ∈ jsInsert cmp a l ↔ x = a ∨ x ∈ l := by
  intro l
  induction l with
  | nil => simp [jsInsert]
  | cons b l ih =>
    by_cases h : cmp a b ≤ 0
    · simp [jsInsert, h]
    · simp only [jsInsert, if_neg h, List.mem_cons, ih]
      tauto

theorem pairwise_jsInsert {α : Type} (cmp : α → α → Int)
    (htotal : ∀ a b, cmp a b ≤ 0 ∨ cmp b a ≤ 0)
    (htrans : ∀ a b c, cmp a b ≤ 0 → cmp b c ≤ 0 → cmp a c ≤ 0)
    (a : α) : ∀ l : List α, l.Pairwise (fun x y => cmp x y ≤ 0) →
      (jsInsert cmp a l).Pairwise (fun x y => cmp x y ≤ 0) := by
  intro l
  induction l with
  | nil => intro _; simp [jsInsert]
  | cons b l ih =>
    intro hp
    rcases List.pairwise_cons.mp hp with ⟨hb, hl⟩
    by_cases h : cmp a b ≤ 0
    · rw [jsInsert, if_pos h]
      refine List.pairwise_cons.mpr ⟨?_, hp⟩
      intro x hx
      rcases List.mem_cons.mp hx with rfl | hx
      · exact h
      · exact htrans a b x h (hb x hx)
    · rw [jsInsert, if_neg h]
      refine List.pairwise_cons.mpr ⟨?_, ih hl⟩
      intro x hx
      rcases (mem_jsInsert cmp a x l).mp hx with heq | hx
      · rcases htotal a b with hab | hba
        · exact absurd hab h
        · rw [heq]; exact hba
      · exact hb x hx

theorem pairwise_jsSort {α : Type} (cmp : α → α → Int)
    (htotal : ∀ a b, cmp a b ≤ 0 ∨ cmp b a ≤ 0)
    (htrans : ∀ a b c, cmp a b ≤ 0 → cmp b c ≤ 0 → cmp a c ≤ 0) :
    ∀ l : List α, (jsSort cmp l).Pairwise (fun x y => cmp x y ≤ 0) := by
  intro l
  induction l with
  | nil => simp [jsSort]
  | cons a l ih => exact pairwise_jsInsert cmp htotal htrans a _ ih

theorem descCmp_le {α : Type} (key : α → ℚ) (a b : α) :
    descCmp key a b ≤ 0 ↔ key b ≤ key a := by
  unfold descCmp
  by_cases h : key a < key b
  · rw [if_pos h]
    constructor
    · intro h10; exact absurd h10 (by norm_num)
    · intro hba; exact absurd h (not_lt.mpr hba)
  · rw [if_neg h]
    constructor
    · intro _; exact not_lt.mp h
    · intro _; norm_num

theorem pairwise_jsSort_descCmp {α : Type} (key : α → ℚ) (l : List α) :
    (jsSort (descCmp key) l).Pairwise (fun a b => key b ≤ key a) := by
  have h := pairwise_jsSort (descCmp key)
    (fun a b => by
      rw [descCmp_le, descCmp_le]
      exact le_total (key b) (key a))
    (fun a b c hab hbc => by
      rw [descCmp_le] at hab hbc ⊢
      exact le_trans hbc hab)
    l
  exact h.imp (fun hab => (descCmp_le key _ _).mp hab)

theorem pairwise_take {α : Type} {r : α → α → Prop} :
    ∀ (n : ℕ) (l : List α), l.Pairwise r → (l.take n).Pairwise r := by
  intro n
  induction n with
  | zero => intro l _; simp
  | succ n ih =>
    intro l hl
    cases l with
    | nil => simp
    | cons a l =>
      rcases List.pairwise_cons.mp hl with ⟨ha, hl'⟩
      rw [List.take_succ_cons]
      exact List.pairwise_cons.mpr
        ⟨fun x hx => ha x (List.mem_of_mem_take hx), ih l hl'⟩

/-- Claim C1: every list returned by `retrieve` and every list displayed by
the Search page under its default sort state (`sortBy = "similarity"`,
`sortOrder = "desc"`) is ordered by non-increasing similarity, a missing
`similarity_score` counting as 0. -/
theorem retrieved_results_sorted_desc (results : List QueryResultItem)
    (candidates : List IndexHit) (top_k : ℕ) (similarity_floor : ℚ) :
    (sortedResults "similarity" "desc" results).Pairwise
      (fun a b => simKey b ≤ simKey a) ∧
    (retrieve candidates top_k similarity_floor).Pairwise
      (fun a b => simKey b ≤ simKey a) := by
  constructor
  · have hcmp : searchComparator "similarity" "desc" = descCmp simKey := by
      funext a b
      rfl
    rw [sortedResults, hcmp]
    exact pairwise_jsSort_descCmp simKey results
  · exact pairwise_take top_k _ (pairwise_jsSort_descCmp simKey _)

/-- Claim C8: the distance-to-similarity transform `1 / (1 + d)` maps every
distance `d ≥ 0` into `(0, 1]` and is strictly decreasing in the distance. -/
theorem distanceToSimilarity_bounds_mono (d d1 d2 : ℚ)
    (hd : 0 ≤ d) (h1 : 0 ≤ d1) (hlt : d1 < d2) :
    0 < distanceToSimilarity d ∧ distanceToSimilarity d ≤ 1 ∧
      distanceToSimilarity d2 < distanceToSimilarity d1 := by
  have hpos : (0 : ℚ) < 1 + d := by linarith
  have hpos1 : (0 : ℚ) < 1 + d1 := by linarith
  refine ⟨?_, ?_, ?_⟩
  · exact div_pos one_pos hpos
  · rw [distanceToSimilarity, div_le_one hpos]; linarith
  · unfold distanceToSimilarity
    exact one_div_lt_one_div_of_lt hpos1 (by linarith)

/-- Concrete instantiation of `distanceToSimilarity_bounds_mono` at
`d = 1`, `d1 = 0`, `d2 = 3`. -/
theorem distanceToSimilarity_bounds_mono_witness :
    (0 : ℚ) ≤ 1 ∧ (0 : ℚ) ≤ 0 ∧ (0 : ℚ) < 3 ∧
      (0 < distanceToSimilarity 1 ∧ distanceToSimilarity 1 ≤ 1 ∧
        distanceToSimilarity 3 < distanceToSimilarity 0) :=
  ⟨by norm_num, by norm_num, by norm_num,
    distanceToSimilarity_bounds_mono 1 0 3 (by norm_num) (by norm_num)
      (by norm_num)⟩

theorem chunkAux_length_eq (text : List Char) (S O : ℕ) (hSO : O < S) :
    ∀ (fuel start : ℕ), text.length - start ≤ fuel →
      (chunkAux text S O fuel start).length =
        (text.length - start + (S - O) - 1) / (S - O) := by
  have hstep : 0 < S - O := by omega
  intro fuel
  induction fuel with
  | zero =>
    intro start hle
    have h0 : text.length - start = 0 := by omega
    rw [chunkAux, h0]
    have : 0 + (S - O) - 1 < S - O := by omega
    rw [Nat.div_eq_of_lt this]
    rfl
  | succ fuel ih =>
    intro start hle
    rw [chunkAux]
    by_cases h : start < text.length
    · rw [if_pos h]
      have hrec := ih (start + (S - O)) (by omega)
      rw [List.length_cons, hrec]
      have hn : 1 ≤ text.length - start := by omega
      set n := text.length - start with hn_def
      have hsub : text.length - (start + (S - O)) = n - (S - O) := by omega
      rw [hsub]
      have hleft : n + (S - O) - 1 = (n - 1) + (S - O) := by omega
      rw [hleft, Nat.add_div_right _ hstep]
      have hright : (n - (S - O) + (S - O) - 1) / (S - O) = (n - 1) / (S - O) := by
        rcases le_or_lt (S - O) n with hc | hc
        · have : n - (S - O) + (S - O) - 1 = n - 1 := by omega
          rw [this]
        · have h1 : n - (S - O) = 0 := by omega
          rw [h1]
          rw [Nat.div_eq_of_lt (by omega), Nat.div_eq_of_lt (by omega)]
      rw [hright]
    · rw [if_neg h]
      have h0 : text.length - start = 0 := by omega
      rw [h0]
      rw [Nat.div_eq_of_lt (by omega)]
      rfl

theorem chunkAux_mem_shape (text : List Char) (S O : ℕ) :
    ∀ (fuel start : ℕ) (c : ℕ × List Char),
      c ∈ chunkAux text S O fuel start →
        c.1 < text.length ∧ c.2 = (text.drop c.1).take S := by
  intro fuel
  induction fuel with
  | zero => intro start c hc; rw [chunkAux] at hc; exact absurd hc (List.not_mem_nil c)
  | succ fuel ih =>
    intro start c hc
    rw [chunkAux] at hc
    by_cases h : start < text.length
    · rw [if_pos h] at hc
      rcases List.mem_cons.mp hc with rfl | hc
      · exact ⟨h, rfl⟩
      · exact ih _ c hc
    · rw [if_neg h] at hc
      exact absurd hc (List.not_mem_nil c)

theorem chunkAux_covers (text : List Char) (S O : ℕ) (hSO : O < S) :
    ∀ (fuel start p : ℕ), text.length - start ≤ fuel → start ≤ p →
      p < text.length →
      ∃ c ∈ chunkAux text S O fuel start, c.1 ≤ p ∧ p < c.1 + c.2.length := by
  intro fuel
  induction fuel with
  | zero => intro start p hle hsp hp; omega
  | succ fuel ih =>
    intro start p hle hsp hp
    have h : start < text.length := by omega
    rw [chunkAux, if_pos h]
    by_cases hcov : p < start + S
    · refine ⟨(start, (text.drop start).take S), List.mem_cons_self _ _, hsp, ?_⟩
      simp only [List.length_take, List.length_drop]
      omega
    · have hstep : 0 < S - O := by omega
      rcases ih (start + (S - O)) p (by omega) (by omega) hp with ⟨c, hc, hcp⟩
      exact ⟨c, List.mem_cons_of_mem _ hc, hcp⟩

/-- Claim C2 (amended): with `overlap < chunk_size`, the sliding-window
chunker produces exactly `ceil(L / (chunk_size - overlap))` chunks — which
is within ±1 of the spec's `ceil((L - overlap) / (chunk_size - overlap))`
only when the step is at least the overlap — every produced chunk is the
non-empty span of the text starting at its recorded offset, the chunk
ranges cover `[0, L)` with no gaps, and an empty text yields zero chunks. -/
theorem chunk_count_cover (text : List Char) (S O : ℕ) (hSO : O < S) :
    (chunk text S O).length = (text.length + (S - O) - 1) / (S - O) ∧
    (∀ c ∈ chunk text S O,
      c.2 = (text.drop c.1).take S ∧ c.2 ≠ [] ∧
        c.1 + c.2.length ≤ text.length) ∧
    (∀ p, p < text.length →
      ∃ c ∈ chunk text S O, c.1 ≤ p ∧ p < c.1 + c.2.length) ∧
    (text = [] → chunk text S O = []) := by
  refine ⟨?_, ?_, ?_, ?_⟩
  · have h := chunkAux_length_eq text S O hSO text.length 0 (by omega)
    rw [chunk, h, Nat.sub_zero]
  · intro c hc
    rcases chunkAux_mem_shape text S O text.length 0 c hc with ⟨hlt, hshape⟩
    refine ⟨hshape, ?_, ?_⟩
    · rw [hshape]
      have : ((text.drop c.1).take S).length = min S (text.length - c.1) := by
        simp [List.length_take, List.length_drop]
      intro hnil
      rw [hnil] at this
      simp only [List.length_nil] at this
      omega
    · rw [hshape]
      simp only [List.length_take, List.length_drop]
      omega
  · intro p hp
    exact chunkAux_covers text S O hSO text.length 0 p (by omega) (by omega) hp
  · intro htext
    rw [chunk, htext]
    rfl

/-- Concrete instantiation of `chunk_count_cover` on a five-character text
with `chunk_size = 3`, `overlap = 1`: three chunks at offsets 0, 2, 4. -/
theorem chunk_count_cover_witness :
    (1 : ℕ) < 3 ∧
      ((chunk ['a', 'b', 'c', 'd', 'e'] 3 1).length = (5 + (3 - 1) - 1) / (3 - 1) ∧
      (∀ c ∈ chunk ['a', 'b', 'c', 'd', 'e'] 3 1,
        c.2 = ((['a', 'b', 'c', 'd', 'e'] : List Char).drop c.1).take 3 ∧ c.2 ≠ [] ∧
          c.1 + c.2.length ≤ (['a', 'b', 'c', 'd', 'e'] : List Char).length) ∧
      (∀ p, p < (['a', 'b', 'c', 'd', 'e'] : List Char).length →
        ∃ c ∈ chunk ['a', 'b', 'c', 'd', 'e'] 3 1, c.1 ≤ p ∧ p < c.1 + c.2.length) ∧
      ((['a', 'b', 'c', 'd', 'e'] : List Char) = [] →
        chunk ['a', 'b', 'c', 'd', 'e'] 3 1 = [])) := by
  constructor
  · decide
  · have h := chunk_count_cover ['a', 'b', 'c', 'd', 'e'] 3 1 (by decide)
    simpa using h

/-- Claim C2, as stated, is false: for a 20-character text with
`chunk_size = 10`, `overlap = 9` the sliding window emits 20 chunks while
the spec's formula `ceil((L - O) / (S - O))` gives 11, which is not within
±1. -/
theorem chunk_count_claim_counterexample :
    (chunk (List.replicate 20 'a') 10 9).length = 20 ∧
    specChunkCount 20 10 9 = 11 ∧
    ¬((chunk (List.replicate 20 'a') 10 9).length ≤ specChunkCount 20 10 9 + 1 ∧
      specChunkCount 20 10 9 ≤ (chunk (List.replicate 20 'a') 10 9).length + 1) := by
  refine ⟨by decide, by decide, ?_⟩
  intro hcontra
  have h1 : (chunk (List.replicate 20 'a') 10 9).length = 20 := by decide
  have h2 : specChunkCount 20 10 9 = 11 := by decide
  omega

theorem qaSubmitPayload_eq (question sel : String) :
    qaSubmitPayload question sel =
      ("question", JsonVal.jstr question) ::
        (if sel = "" then [] else [("document_id", JsonVal.jstr sel)]) := by
  by_cases h : sel = ""
  · subst h; rfl
  · rw [qaSubmitPayload, if_neg h]
    show ("question", JsonVal.jstr question) ::
        (if sel = "" then [] else [("document_id", JsonVal.jstr sel)]) = _
    rfl

/-- Claim C3, as stated, is false: the payload sent for the concrete
question "What is AI?" with no document selected carries neither a
`max_chunks` nor a `similarity_threshold` field. -/
theorem ask_payload_counterexample :
    qaSubmitPayload "What is AI?" "" = askPayload "What is AI?" none ∧
    (qaSubmitPayload "What is AI?" "").lookup "max_chunks" = none ∧
    (qaSubmitPayload "What is AI?" "").lookup "similarity_threshold" = none := by
  refine ⟨rfl, rfl, rfl⟩

/-- Claim C3 (amended): every ask request carries the question text and a
`document_id` field exactly when a document is selected, but no
`max_chunks` or `similarity_threshold` field — the server-side defaults
apply for those parameters. -/
theorem ask_payload_fields (question sel : String) :
    (qaSubmitPayload question sel).lookup "question" =
      some (JsonVal.jstr question) ∧
    (qaSubmitPayload question sel).lookup "document_id" =
      (if sel = "" then none else some (JsonVal.jstr sel)) ∧
    (qaSubmitPayload question sel).lookup "max_chunks" = none ∧
    (qaSubmitPayload question sel).lookup "similarity_threshold" = none := by
  by_cases h : sel = ""
  · subst h
    exact ⟨rfl, rfl, rfl, rfl⟩
  · rw [qaSubmitPayload_eq, if_neg h, if_neg h]
    exact ⟨rfl, rfl, rfl, rfl⟩

/-- Claim C4, as stated, is false: the payload sent for the concrete query
"machine learning" carries no `similarity_threshold` field. -/
theorem search_payload_counterexample :
    handleSearchRequest "machine learning" =
      some (searchPayload "machine learning" 20) ∧
    (searchPayload "machine learning" 20).lookup "similarity_threshold" =
      none := by
  exact ⟨by decide, rfl⟩

/-- Claim C4 (amended): every search request submitted from the Search page
carries the trimmed query string and the maximum result count (20), but no
`similarity_threshold` field — the server-side default applies. -/
theorem search_payload_fields (query : String) (h : jsTrim query ≠ "") :
    handleSearchRequest query = some (searchPayload (jsTrim query) 20) ∧
    (searchPayload (jsTrim query) 20).lookup "query" =
      some (JsonVal.jstr (jsTrim query)) ∧
    (searchPayload (jsTrim query) 20).lookup "limit" =
      some (JsonVal.jnum 20) ∧
    (searchPayload (jsTrim query) 20).lookup "similarity_threshold" =
      none := by
  refine ⟨?_, rfl, rfl, rfl⟩
  rw [handleSearchRequest, if_neg h]

/-- Concrete instantiation of `search_payload_fields` at the query
"hello world". -/
theorem search_payload_fields_witness :
    jsTrim "hello world" ≠ "" ∧
      (handleSearchRequest "hello world" =
        some (searchPayload (jsTrim "hello world") 20) ∧
      (searchPayload (jsTrim "hello world") 20).lookup "query" =
        some (JsonVal.jstr (jsTrim "hello world")) ∧
      (searchPayload (jsTrim "hello world") 20).lookup "limit" =
        some (JsonVal.jnum 20) ∧
      (searchPayload (jsTrim "hello world") 20).lookup
        "similarity_threshold" = none) :=
  ⟨by decide, search_payload_fields "hello world" (by decide)⟩

/-- Claim C5: when an ask request fails, the submit handler appends exactly
one entry of type "error" carrying the error message and no entry of type
"ai" for that request. -/
theorem ask_failure_error_entry (history : List ChatMessage)
    (question e : String) (hq : jsTrim question ≠ "") :
    ((handleSubmit history question (AskResult.failure e)).drop
        history.length).countP (fun m => m.mtype == "error") = 1 ∧
    ((handleSubmit history question (AskResult.failure e)).drop
        history.length).countP (fun m => m.mtype == "ai") = 0 ∧
    ∀ m ∈ (handleSubmit history question (AskResult.failure e)).drop
        history.length,
      m.mtype = "error" →
        m.content = (if e = "" then "Failed to get answer" else e) := by
  have hh : handleSubmit history question (AskResult.failure e) =
      history ++ [userMessage question, askErrorMessage e] := by
    rw [handleSubmit, if_neg hq]
  rw [hh, List.drop_left]
  refine ⟨rfl, rfl, ?_⟩
  intro m hm hme
  rcases List.mem_cons.mp hm with rfl | hm
  · exact absurd (show ("user" : String) = "error" from hme) (by decide)
  · rcases List.mem_cons.mp hm with rfl | hm
    · rfl
    · exact absurd hm (List.not_mem_nil m)

/-- Concrete instantiation of `ask_failure_error_entry` on an empty history
with question "q" and error "boom". -/
theorem ask_failure_error_entry_witness :
    jsTrim "q" ≠ "" ∧
      (((handleSubmit [] "q" (AskResult.failure "boom")).drop
          ([] : List ChatMessage).length).countP
          (fun m => m.mtype == "error") = 1 ∧
      ((handleSubmit [] "q" (AskResult.failure "boom")).drop
          ([] : List ChatMessage).length).countP
          (fun m => m.mtype == "ai") = 0 ∧
      ∀ m ∈ (handleSubmit [] "q" (AskResult.failure "boom")).drop
          ([] : List ChatMessage).length,
        m.mtype = "error" →
          m.content =
            (if ("boom" : String) = "" then "Failed to get answer"
              else "boom")) :=
  ⟨by decide, ask_failure_error_entry [] "q" "boom" (by decide)⟩

/-- Claim C9: a successful answer whose confidence is exactly 0 is stored
with a `null` confidence, the confidence badge does not render, and the
resulting chat update is identical to the one for an answer with no
confidence at all. -/
theorem zero_confidence_stored_null (history : List ChatMessage)
    (question : String) (a : AnswerData) (hq : jsTrim question ≠ "")
    (hc : a.confidence = some 0) :
    (askAiMessage a).confidence = none ∧
    rendersConfidenceBadge (askAiMessage a) = false ∧
    askAiMessage a = askAiMessage { a with confidence := none } ∧
    handleSubmit history question (AskResult.success a) =
      history ++ [userMessage question, askAiMessage a] := by
  refine ⟨?_, ?_, ?_, ?_⟩
  · simp [askAiMessage, confidenceOrNull, hc]
  · simp [rendersConfidenceBadge, askAiMessage, confidenceOrNull, hc]
  · simp [askAiMessage, confidenceOrNull, hc]
  · rw [handleSubmit, if_neg hq]

/-- Concrete instantiation of `zero_confidence_stored_null` on an empty
history, question "q", and an answer with confidence 0. -/
theorem zero_confidence_stored_null_witness :
    jsTrim "q" ≠ "" ∧
      (⟨"ans", some [], some 0⟩ : AnswerData).confidence = some 0 ∧
      ((askAiMessage ⟨"ans", some [], some 0⟩).confidence = none ∧
      rendersConfidenceBadge (askAiMessage ⟨"ans", some [], some 0⟩) = false ∧
      askAiMessage ⟨"ans", some [], some 0⟩ =
        askAiMessage { (⟨"ans", some [], some 0⟩ : AnswerData) with
          confidence := none } ∧
      handleSubmit [] "q" (AskResult.success ⟨"ans", some [], some 0⟩) =
        [] ++ [userMessage "q", askAiMessage ⟨"ans", some [], some 0⟩]) :=
  ⟨by decide, rfl,
    zero_confidence_stored_null [] "q" ⟨"ans", some [], some 0⟩
      (by decide) rfl⟩

/-- Claim C6: a file whose size exceeds the 10 MB maximum or whose type is
outside the allowlist is never added to the selected-files list by a drop,
and no upload request is ever issued for it from a selection built by
drops. -/
theorem rejected_file_never_selected (prev dropped : List JsFile)
    (f : JsFile) (title description : String)
    (hbad : maxUploadSize < f.size ∨ f.mimeType ∉ allowedMimeTypes) :
    f ∉ (onDropFiles prev dropped).drop prev.length ∧
    ∀ r ∈ uploadSubmit (onDropFiles [] dropped) title description,
      r.file ≠ f := by
  have hkey : f ∉ dropped.filter dropzoneAccepts := by
    intro hf
    have hacc := List.of_mem_filter hf
    rw [dropzoneAccepts, Bool.and_eq_true, decide_eq_true_eq,
      decide_eq_true_eq] at hacc
    rcases hbad with h | h
    · exact absurd hacc.2 (not_le.mpr h)
    · exact h hacc.1
  constructor
  · rw [onDropFiles, List.drop_left]
    exact hkey
  · intro r hr heq
    rw [uploadSubmit] at hr
    rcases List.mem_map.mp hr with ⟨g, hg, rfl⟩
    rw [onDropFiles, List.nil_append] at hg
    have : g = f := heq
    rw [this] at hg
    exact hkey hg

/-- Concrete instantiation of `rejected_file_never_selected` for an
oversize PDF dropped into an empty selection. -/
theorem rejected_file_never_selected_witness :
    (maxUploadSize <
      (⟨"big.pdf", "application/pdf", 10485761⟩ : JsFile).size ∨
      (⟨"big.pdf", "application/pdf", 10485761⟩ : JsFile).mimeType ∉
        allowedMimeTypes) ∧
      ((⟨"big.pdf", "application/pdf", 10485761⟩ : JsFile) ∉
        (onDropFiles [] [⟨"big.pdf", "application/pdf", 10485761⟩]).drop
          ([] : List JsFile).length ∧
      ∀ r ∈ uploadSubmit
          (onDropFiles [] [⟨"big.pdf", "application/pdf", 10485761⟩])
          "Title" "",
        r.file ≠ (⟨"big.pdf", "application/pdf", 10485761⟩ : JsFile)) :=
  ⟨Or.inl (by decide),
    rejected_file_never_selected [] [⟨"big.pdf", "application/pdf", 10485761⟩]
      ⟨"big.pdf", "application/pdf", 10485761⟩ "Title" ""
      (Or.inl (by decide))⟩

/-- Claim C7: each source of a successful answer is rendered from the
`title` and `chunk_text` fields already present on the source item alone —
two sources agreeing on those two fields render identically regardless of
any other field — the rendered excerpt is the verbatim leading span of the
chunk text, and the AI chat entry carries exactly `answer.sources || []`
for rendering, with no second lookup. -/
theorem source_rendered_from_own_fields (s s' : SourceItem) (a : AnswerData)
    (ht : s.title = s'.title) (hc : s.chunk_text = s'.chunk_text) :
    renderSource s = renderSource s' ∧
    (renderSource s).1 = s.title ∧
    (renderSource s).2 = (if s.chunk_text = "" then none
      else some (s.chunk_text.take 100 ++ "...")) ∧
    (askAiMessage a).sources = a.sources.getD [] := by
  refine ⟨?_, rfl, rfl, rfl⟩
  rw [renderSource, renderSource, ht, hc]

/-- Concrete instantiation of `source_rendered_from_own_fields`: two
sources sharing title and chunk text but differing in document id and
score render identically. -/
theorem source_rendered_from_own_fields_witness :
    (("Report" : String) = "Report") ∧ (("body text" : String) = "body text") ∧
      (renderSource ⟨"Report", "body text", "docA", some 1⟩ =
        renderSource ⟨"Report", "body text", "docB", none⟩ ∧
      (renderSource ⟨"Report", "body text", "docA", some 1⟩).1 =
        (⟨"Report", "body text", "docA", some 1⟩ : SourceItem).title ∧
      (renderSource ⟨"Report", "body text", "docA", some 1⟩).2 =
        (if (⟨"Report", "body text", "docA", some 1⟩ : SourceItem).chunk_text
            = "" then none
          else some ((⟨"Report", "body text", "docA",
            some 1⟩ : SourceItem).chunk_text.take 100 ++ "...")) ∧
      (askAiMessage ⟨"ans", some [], none⟩).sources =
        (⟨"ans", some [], none⟩ : AnswerData).sources.getD []) :=
  ⟨rfl, rfl,
    source_rendered_from_own_fields ⟨"Report", "body text", "docA", some 1⟩
      ⟨"Report", "body text", "docB", none⟩ ⟨"ans", some [], none⟩ rfl rfl⟩

/-- Claim C10: the status presentation helpers are total functions of the
status string (they are defined for every input by construction), and every
status outside processed/processing/error — including "pending" — maps to
the same default pending-style presentation. -/
theorem status_presentation_default (status : String)
    (h : status ∉ (["processed", "processing", "error"] : List String)) :
    getStatusIcon status = StatusIcon.clock ∧
    getStatusColor status = "bg-yellow-100 text-yellow-800" ∧
    getStatusIcon status = getStatusIcon "pending" ∧
    getStatusColor status = getStatusColor "pending" := by
  simp only [List.mem_cons, List.mem_singleton, not_or] at h
  rcases h with ⟨h1, h2, h3, -⟩
  rw [getStatusIcon, if_neg h1, if_neg h2, if_neg h3]
  rw [getStatusColor, if_neg h1, if_neg h2, if_neg h3]
  exact ⟨rfl, rfl, rfl, rfl⟩

/-- Concrete instantiation of `status_presentation_default` at the status
"pending" itself. -/
theorem status_presentation_default_witness :
    ("pending" : String) ∉ (["processed", "processing", "error"] :
        List String) ∧
      (getStatusIcon "pending" = StatusIcon.clock ∧
      getStatusColor "pending" = "bg-yellow-100 text-yellow-800" ∧
      getStatusIcon "pending" = getStatusIcon "pending" ∧
      getStatusColor "pending" = getStatusColor "pending") :=
  ⟨by decide, status_presentation_default "pending" (by decide)⟩
